import Mathlib

/-!
Shallow embedding of the electron-clipboard-observer repository.

The repository has two variants of the same polling observer:
- a function-style variant in src/index.js (namespace IndexJs below), and
- a class-style variant in src/unnamed/part_000 (namespace ClipboardObserver below).

Host clipboard values are modelled as plain data: text is a String
(readText returns the empty string when the clipboard holds no text) and an
image is a handle carrying the results of its isEmpty and toDataURL methods.
JavaScript truthiness of a string is the test for the empty string; a
possibly-undefined value is an Option. Callbacks are modelled by presence
flags in the observer state plus externally supplied behaviour functions
that say, for given arguments, whether the callback raises an exception.
Timers are modelled by an explicit timer system: setInterval allocates a
fresh id and records the (id, delay) pair as active, clearInterval on an id
removes it, and clearInterval on undefined is a no-op, following the
JavaScript timer API. The delay argument is an Option Nat because the
class-style variant can pass undefined to setInterval.
-/

/-- An image handle as the host exposes it: the values its isEmpty and
toDataURL methods would return. -/
structure Image where
  isEmpty : Bool
  toDataURL : String
deriving DecidableEq

/-- The clipboard contents visible at one instant: current text and current
image. readText yields the text field, readImage yields the image field. -/
structure Clipboard where
  text : String
  image : Image
deriving DecidableEq

/-- Observable effects of running the observer code: host clipboard reads
and user callback invocations, with the values involved. -/
inductive Effect where
  | readText (result : String)
  | readImage (result : Image)
  | textChange (text : String) (beforeText : Option String)
  | imageChange (image : Image) (beforeImage : Option Image)
deriving DecidableEq

/-- Whether an effect is a user callback invocation. -/
def Effect.isCallback : Effect → Bool
  | .textChange _ _ => true
  | .imageChange _ _ => true
  | _ => false

/-- Whether an effect is a host readImage call. -/
def Effect.isReadImage : Effect → Bool
  | .readImage _ => true
  | _ => false

/-- The ambient timer system: the next fresh interval id and the list of
currently active intervals with their delays (none models undefined). -/
structure TimerSys where
  nextId : Nat
  active : List (Nat × Option Nat)
deriving DecidableEq

/-- setInterval: allocates a fresh id, records it as active with the given
delay, and returns the id (the handle the caller stores). -/
def TimerSys.setIntervalCall (sys : TimerSys) (delay : Option Nat) : Nat × TimerSys :=
  (sys.nextId, ⟨sys.nextId + 1, sys.active ++ [(sys.nextId, delay)]⟩)

/-- clearInterval: removes the interval with the given handle from the
active list; called on undefined it is a no-op. -/
def TimerSys.clearIntervalCall (sys : TimerSys) (handle : Option Nat) : TimerSys :=
  match handle with
  | none => sys
  | some id => ⟨sys.nextId, sys.active.filter (fun p => p.1 != id)⟩

/-- Per-observer mutable state, shared by both variants: the stored timer
handle, the last-known text and image (undefined until first capture), the
duration, and the presence of the two callbacks. In the class variant these
are the instance fields; in the function variant they are the closure
variables timer, beforeText, beforeImage and the captured options. -/
structure ObserverState where
  timer : Option Nat
  beforeText : Option String
  beforeImage : Option Image
  duration : Option Nat
  textChange : Bool
  imageChange : Bool
deriving DecidableEq

/-- Configuration passed at construction: duration none means the key is
absent (undefined), and the flags say which callbacks are supplied. -/
structure Options where
  duration : Option Nat
  textChange : Bool
  imageChange : Bool
deriving DecidableEq

/-- The image diff predicate, textually identical in src/index.js lines
17-19 and src/unnamed/part_000 lines 162-164:
afterImage and not afterImage.isEmpty() and
beforeImage.toDataURL() not equal to afterImage.toDataURL().
Short-circuit order matters: when afterImage is absent or empty the result
is false without touching beforeImage; otherwise, if beforeImage is
undefined, calling toDataURL on it raises a TypeError (the error case). -/
def isDiffImage (beforeImage : Option Image) (afterImage : Option Image) : Except Unit Bool :=
  match afterImage with
  | none => Except.ok false
  | some a =>
    if a.isEmpty then Except.ok false
    else
      match beforeImage with
      | none => Except.error ()
      | some b => Except.ok (decide (b.toDataURL ≠ a.toDataURL))

/-- Result of one timer tick: the observer state afterwards, the effects
performed in order, and whether an exception escaped the tick. -/
structure TickResult where
  state : ObserverState
  effects : List Effect
  threw : Bool
deriving DecidableEq

/-- The image half of a tick, textually identical in src/index.js lines
56-62 and src/unnamed/part_000 lines 133-142: if the image callback is
configured, read the image, and when isDiffImage reports a difference,
invoke the callback with (image, beforeImage) and then store the image as
beforeImage. A TypeError from isDiffImage or an exception from the
callback escapes the tick, and in the latter case the store is skipped
because the assignment comes after the call. -/
def imageStep (iThrow : Image → Option Image → Bool) (clip : Clipboard)
    (s : ObserverState) (es : List Effect) : TickResult :=
  if s.imageChange then
    let image := clip.image
    let es₁ := es ++ [Effect.readImage image]
    match isDiffImage s.beforeImage (some image) with
    | Except.error _ => ⟨s, es₁, true⟩
    | Except.ok false => ⟨s, es₁, false⟩
    | Except.ok true =>
      let es₂ := es₁ ++ [Effect.imageChange image s.beforeImage]
      if iThrow image s.beforeImage then ⟨s, es₂, true⟩
      else ⟨{ s with beforeImage := some image }, es₂, false⟩
  else ⟨s, es, false⟩

namespace ClipboardObserver

/-- The class-variant text diff predicate, src/unnamed/part_000 lines
152-154: afterText and beforeText not strictly equal to afterText. The
first conjunct is string truthiness of afterText; the comparison is strict
inequality, and undefined is strictly unequal to every string, so the
Option-level disequality captures both the seeded and the undefined case. -/
def isDiffText (beforeText : Option String) (afterText : String) : Bool :=
  decide (afterText ≠ "") && decide (beforeText ≠ some afterText)

/-- setClipboardDefaultValue, src/unnamed/part_000 lines 97-106: for each
configured callback, read the corresponding clipboard value and store it as
the last-known value. -/
def setClipboardDefaultValue (clip : Clipboard) (s : ObserverState) :
    ObserverState × List Effect :=
  let (s₁, es₁) :=
    if s.textChange then
      ({ s with beforeText := some clip.text }, [Effect.readText clip.text])
    else (s, [])
  let (s₂, es₂) :=
    if s₁.imageChange then
      ({ s₁ with beforeImage := some clip.image }, [Effect.readImage clip.image])
    else (s₁, [])
  (s₂, es₁ ++ es₂)

/-- setTimer, src/unnamed/part_000 lines 119-144: unconditionally schedules
a new interval at this.duration and overwrites this.timer with the new
handle. The previously stored handle, if any, is not cleared. -/
def setTimer (s : ObserverState) (sys : TimerSys) : ObserverState × TimerSys :=
  let (id, sys₁) := sys.setIntervalCall s.duration
  ({ s with timer := some id }, sys₁)

/-- clearTimer, src/unnamed/part_000 lines 90-92: clearInterval on the
stored handle. -/
def clearTimer (s : ObserverState) (sys : TimerSys) : TimerSys :=
  sys.clearIntervalCall s.timer

/-- start, src/unnamed/part_000 lines 64-69: seed the last-known values,
then set the timer. -/
def start (clip : Clipboard) (s : ObserverState) (sys : TimerSys) :
    ObserverState × TimerSys × List Effect :=
  let (s₁, es) := setClipboardDefaultValue clip s
  let (s₂, sys₁) := setTimer s₁ sys
  (s₂, sys₁, es)

/-- stop, src/unnamed/part_000 lines 74-77: the body calls this.setTimer()
(the comment in the source says it clears the timer, but the call is to
setTimer, not clearTimer). -/
def stop (s : ObserverState) (sys : TimerSys) : ObserverState × TimerSys :=
  setTimer s sys

/-- The class constructor, src/unnamed/part_000 lines 47-59: the field
initialiser sets duration to 500, then the constructor body unconditionally
assigns this.duration = options.duration (undefined when absent) and the
two callbacks, and calls start() when at least one callback is present. -/
def mkObserver (opts : Options) (clip : Clipboard) (sys : TimerSys) :
    ObserverState × TimerSys × List Effect :=
  let s₀ : ObserverState :=
    { timer := none, beforeText := none, beforeImage := none,
      duration := some 500, textChange := false, imageChange := false }
  let s₁ := { s₀ with duration := opts.duration,
                      textChange := opts.textChange,
                      imageChange := opts.imageChange }
  if s₁.textChange || s₁.imageChange then start clip s₁ sys
  else (s₁, sys, [])

/-- One tick of the class-variant interval, src/unnamed/part_000 lines
121-143: if the text callback is configured, read the text; when isDiffText
reports a difference, invoke the callback with (text, beforeText) and then
store text as beforeText (skipped when the callback raises, because the
assignment comes after the call, and the image half is then skipped too);
then the image half. -/
def tick (tThrow : String → Option String → Bool)
    (iThrow : Image → Option Image → Bool)
    (clip : Clipboard) (s : ObserverState) : TickResult :=
  if s.textChange then
    let text := clip.text
    let es₁ := [Effect.readText text]
    if isDiffText s.beforeText text then
      let es₂ := es₁ ++ [Effect.textChange text s.beforeText]
      if tThrow text s.beforeText then ⟨s, es₂, true⟩
      else imageStep iThrow clip { s with beforeText := some text } es₂
    else imageStep iThrow clip s es₁
  else imageStep iThrow clip s []

end ClipboardObserver

namespace IndexJs

/-- The function-variant text diff predicate, src/index.js lines 8-10:
beforeText and afterText and beforeText not strictly equal to afterText.
All three conjuncts matter: an undefined or empty beforeText makes the
whole expression falsy. -/
def isDiffText (beforeText : Option String) (afterText : String) : Bool :=
  match beforeText with
  | none => false
  | some b => decide (b ≠ "") && decide (afterText ≠ "") && decide (b ≠ afterText)

/-- Object.assign({}, DEFAULT_OPTIONS, option) of src/index.js lines 21-30:
the duration key of option overrides the default 500 only when present. -/
def resolvedDuration (o : Options) : Nat :=
  o.duration.getD 500

/-- clipboardObserver, src/index.js lines 29-71: when at least one callback
is supplied, seed beforeText and beforeImage from conditional reads and
schedule the interval at the resolved duration; otherwise do nothing. -/
def clipboardObserver (o : Options) (clip : Clipboard) (sys : TimerSys) :
    ObserverState × TimerSys × List Effect :=
  let s₀ : ObserverState :=
    { timer := none, beforeText := none, beforeImage := none,
      duration := some (resolvedDuration o),
      textChange := o.textChange, imageChange := o.imageChange }
  if o.textChange || o.imageChange then
    let (s₁, es₁) :=
      if o.textChange then
        ({ s₀ with beforeText := some clip.text }, [Effect.readText clip.text])
      else (s₀, [])
    let (s₂, es₂) :=
      if o.imageChange then
        ({ s₁ with beforeImage := some clip.image }, [Effect.readImage clip.image])
      else (s₁, [])
    let (id, sys₁) := sys.setIntervalCall s₂.duration
    ({ s₂ with timer := some id }, sys₁, es₁ ++ es₂)
  else (s₀, sys, [])

/-- destroy, src/index.js lines 66-70: clearInterval on the captured timer
variable (a no-op when no timer was ever created). -/
def destroy (s : ObserverState) (sys : TimerSys) : TimerSys :=
  sys.clearIntervalCall s.timer

/-- One tick of the function-variant interval, src/index.js lines 47-63:
same shape as the class-variant tick, but with the function-variant
isDiffText. -/
def tick (tThrow : String → Option String → Bool)
    (iThrow : Image → Option Image → Bool)
    (clip : Clipboard) (s : ObserverState) : TickResult :=
  if s.textChange then
    let text := clip.text
    let es₁ := [Effect.readText text]
    if isDiffText s.beforeText text then
      let es₂ := es₁ ++ [Effect.textChange text s.beforeText]
      if tThrow text s.beforeText then ⟨s, es₂, true⟩
      else imageStep iThrow clip { s with beforeText := some text } es₂
    else imageStep iThrow clip s es₁
  else imageStep iThrow clip s []

end IndexJs

/-- A sample non-empty image used in concrete evaluations. -/
def imgA : Image := ⟨false, "data-a"⟩

/-- A sample empty image handle (the empty sentinel readImage can return). -/
def imgEmpty : Image := ⟨true, ""⟩

/-- A sample clipboard holding text A and an empty image. -/
def clip0 : Clipboard := ⟨"A", imgEmpty⟩

/-- A sample clipboard holding text B and an empty image. -/
def clipB : Clipboard := ⟨"B", imgEmpty⟩

/-- The fresh timer system: no ids allocated, nothing active. -/
def sys0 : TimerSys := ⟨0, []⟩

/-- A class observer constructed with a text callback over clip0: the
constructor runs start, seeding beforeText and scheduling interval 0. -/
def started0 : ObserverState × TimerSys × List Effect :=
  ClipboardObserver.mkObserver ⟨some 500, true, false⟩ clip0 sys0

/-- A dormant class observer constructed with neither callback. -/
def dormant0 : ObserverState :=
  (ClipboardObserver.mkObserver ⟨none, false, false⟩ clip0 sys0).1

/-- A seeded observer state used for the exception-handling claims: text
callback configured, last-known text A, no image callback. -/
def sA : ObserverState :=
  { timer := some 0, beforeText := some "A", beforeImage := none,
    duration := some 500, textChange := true, imageChange := false }

/-!
Helper lemmas shared by the claim theorems.
-/

/-- The class-variant text diff never fires when the current text equals the
stored text. -/
lemma isDiffText_cls_self (t : String) :
    ClipboardObserver.isDiffText (some t) t = false := by
  simp [ClipboardObserver.isDiffText]

/-- The function-variant text diff never fires when the current text equals
the stored text. -/
lemma isDiffText_idx_self (t : String) :
    IndexJs.isDiffText (some t) t = false := by
  simp [IndexJs.isDiffText]

/-- The image diff never fires when the current image equals the stored
image. -/
lemma isDiffImage_self (i : Image) :
    isDiffImage (some i) (some i) = Except.ok false := by
  by_cases h : i.isEmpty = true <;> simp [isDiffImage, h]

/-- With the stored image seeded to the current clipboard image, the image
half of a tick only performs its read. -/
lemma imageStep_seeded (iT : Image → Option Image → Bool) (clip : Clipboard)
    (s : ObserverState) (es : List Effect)
    (hI : s.imageChange = true → s.beforeImage = some clip.image) :
    imageStep iT clip s es =
      ⟨s, es ++ (if s.imageChange then [Effect.readImage clip.image] else []),
        false⟩ := by
  cases hic : s.imageChange
  · simp [imageStep, hic]
  · simp [imageStep, hic, hI hic, isDiffImage_self]

/-- With both stored values seeded to the current clipboard contents, a
class-variant tick changes nothing and only performs reads. -/
lemma tick_cls_seeded (tT : String → Option String → Bool)
    (iT : Image → Option Image → Bool) (clip : Clipboard) (s : ObserverState)
    (hT : s.textChange = true → s.beforeText = some clip.text)
    (hI : s.imageChange = true → s.beforeImage = some clip.image) :
    ClipboardObserver.tick tT iT clip s =
      ⟨s, (if s.textChange then [Effect.readText clip.text] else []) ++
          (if s.imageChange then [Effect.readImage clip.image] else []),
        false⟩ := by
  cases htc : s.textChange
  · simp [ClipboardObserver.tick, htc, imageStep_seeded iT clip s _ hI]
  · simp [ClipboardObserver.tick, htc, hT htc, isDiffText_cls_self,
      imageStep_seeded iT clip s _ hI]

/-- With both stored values seeded to the current clipboard contents, a
function-variant tick changes nothing and only performs reads. -/
lemma tick_idx_seeded (tT : String → Option String → Bool)
    (iT : Image → Option Image → Bool) (clip : Clipboard) (s : ObserverState)
    (hT : s.textChange = true → s.beforeText = some clip.text)
    (hI : s.imageChange = true → s.beforeImage = some clip.image) :
    IndexJs.tick tT iT clip s =
      ⟨s, (if s.textChange then [Effect.readText clip.text] else []) ++
          (if s.imageChange then [Effect.readImage clip.image] else []),
        false⟩ := by
  cases htc : s.textChange
  · simp [IndexJs.tick, htc, imageStep_seeded iT clip s _ hI]
  · simp [IndexJs.tick, htc, hT htc, isDiffText_idx_self,
      imageStep_seeded iT clip s _ hI]

/-- The class constructor keeps the callback flags and seeds the last-known
value of every configured channel from the clipboard. -/
lemma mk_cls_seeds (opts : Options) (clip : Clipboard) (sys : TimerSys) :
    ((ClipboardObserver.mkObserver opts clip sys).1.textChange = opts.textChange) ∧
    ((ClipboardObserver.mkObserver opts clip sys).1.imageChange = opts.imageChange) ∧
    (opts.textChange = true →
      (ClipboardObserver.mkObserver opts clip sys).1.beforeText = some clip.text) ∧
    (opts.imageChange = true →
      (ClipboardObserver.mkObserver opts clip sys).1.beforeImage = some clip.image) := by
  cases htc : opts.textChange <;> cases hic : opts.imageChange <;>
    simp [ClipboardObserver.mkObserver, ClipboardObserver.start,
      ClipboardObserver.setClipboardDefaultValue, ClipboardObserver.setTimer,
      TimerSys.setIntervalCall, htc, hic]

/-- The class start keeps the callback flags and seeds the last-known value
of every configured channel from the clipboard. -/
lemma start_cls_seeds (clip : Clipboard) (s : ObserverState) (sys : TimerSys) :
    ((ClipboardObserver.start clip s sys).1.textChange = s.textChange) ∧
    ((ClipboardObserver.start clip s sys).1.imageChange = s.imageChange) ∧
    (s.textChange = true →
      (ClipboardObserver.start clip s sys).1.beforeText = some clip.text) ∧
    (s.imageChange = true →
      (ClipboardObserver.start clip s sys).1.beforeImage = some clip.image) := by
  cases htc : s.textChange <;> cases hic : s.imageChange <;>
    simp [ClipboardObserver.start, ClipboardObserver.setClipboardDefaultValue,
      ClipboardObserver.setTimer, TimerSys.setIntervalCall, htc, hic]

/-- The function-variant constructor keeps the callback flags and seeds the
last-known value of every configured channel from the clipboard. -/
lemma mk_idx_seeds (opts : Options) (clip : Clipboard) (sys : TimerSys) :
    ((IndexJs.clipboardObserver opts clip sys).1.textChange = opts.textChange) ∧
    ((IndexJs.clipboardObserver opts clip sys).1.imageChange = opts.imageChange) ∧
    (opts.textChange = true →
      (IndexJs.clipboardObserver opts clip sys).1.beforeText = some clip.text) ∧
    (opts.imageChange = true →
      (IndexJs.clipboardObserver opts clip sys).1.beforeImage = some clip.image) := by
  cases htc : opts.textChange <;> cases hic : opts.imageChange <;>
    simp [IndexJs.clipboardObserver, TimerSys.setIntervalCall, htc, hic]

/-- Conditional read lists contain no callback invocation. -/
lemma all_reads (t : String) (i : Image) (c1 c2 : Bool) :
    ((if c1 = true then [Effect.readText t] else []) ++
      (if c2 = true then [Effect.readImage i] else [])).all
        (fun e => !e.isCallback) = true := by
  cases c1 <;> cases c2 <;> simp [Effect.isCallback]

/-- A seeded class-variant tick leaves the state unchanged, invokes no
callback and raises nothing. -/
lemma tick_cls_noop (tT : String → Option String → Bool)
    (iT : Image → Option Image → Bool) (clip : Clipboard) (s : ObserverState)
    (hT : s.textChange = true → s.beforeText = some clip.text)
    (hI : s.imageChange = true → s.beforeImage = some clip.image) :
    (ClipboardObserver.tick tT iT clip s).state = s ∧
    (ClipboardObserver.tick tT iT clip s).effects.all (fun e => !e.isCallback) = true ∧
    (ClipboardObserver.tick tT iT clip s).threw = false := by
  rw [tick_cls_seeded tT iT clip s hT hI]
  exact ⟨rfl, all_reads clip.text clip.image s.textChange s.imageChange, rfl⟩

/-- A seeded function-variant tick leaves the state unchanged, invokes no
callback and raises nothing. -/
lemma tick_idx_noop (tT : String → Option String → Bool)
    (iT : Image → Option Image → Bool) (clip : Clipboard) (s : ObserverState)
    (hT : s.textChange = true → s.beforeText = some clip.text)
    (hI : s.imageChange = true → s.beforeImage = some clip.image) :
    (IndexJs.tick tT iT clip s).state = s ∧
    (IndexJs.tick tT iT clip s).effects.all (fun e => !e.isCallback) = true ∧
    (IndexJs.tick tT iT clip s).threw = false := by
  rw [tick_idx_seeded tT iT clip s hT hI]
  exact ⟨rfl, all_reads clip.text clip.image s.textChange s.imageChange, rfl⟩

/-- The image half of a tick never touches the stored text. -/
lemma imageStep_beforeText (iT : Image → Option Image → Bool) (clip : Clipboard)
    (s : ObserverState) (es : List Effect) :
    (imageStep iT clip s es).state.beforeText = s.beforeText := by
  simp only [imageStep]
  split
  · split
    · rfl
    · rfl
    · split <;> rfl
  · rfl

/-!
Claim theorems.
-/

/-- C1, counterexample: the function-variant isDiffText of src/index.js does
not satisfy the claimed iff at previousText empty and currentText "a": the
claim predicts a change, the code reports none because it also requires the
previous text to be truthy. -/
theorem C1_counterexample :
    ¬ (IndexJs.isDiffText (some "") "a" = true ↔
        (("a" : String) ≠ "" ∧ ("a" : String) ≠ "")) := by
  decide

/-- C1, amended: the class-variant isDiffText reports a change iff the
current text is non-empty and differs from the previous text, exactly as
claimed; the function-variant isDiffText of src/index.js additionally
requires the previous text to be non-empty, so an empty previous text
never yields a change there. -/
theorem C1_amended_theorem (p c : String) :
    (ClipboardObserver.isDiffText (some p) c = true ↔ (c ≠ "" ∧ c ≠ p)) ∧
    (IndexJs.isDiffText (some p) c = true ↔ (p ≠ "" ∧ c ≠ "" ∧ c ≠ p)) := by
  constructor
  · simp [ClipboardObserver.isDiffText]
    intro _
    constructor
    · intro h h2; exact h h2.symm
    · intro h h2; exact h h2.symm
  · simp [IndexJs.isDiffText, and_assoc]
    intro _ _
    constructor
    · intro h h2; exact h h2.symm
    · intro h h2; exact h h2.symm

/-- C2: evaluating stop on a freshly constructed class observer whose
interval 0 is active shows that stop schedules a second interval (id 1)
instead of cancelling interval 0, and stores the new handle; the
function-variant destroy, by contrast, does cancel its interval. This
contradicts the claim and the source comment next to stop, which says the
timer is cleared. -/
theorem C2_theorem :
    (ClipboardObserver.stop started0.1 started0.2.1).2.active
        = [(0, some 500), (1, some 500)] ∧
    (ClipboardObserver.stop started0.1 started0.2.1).1.timer = some 1 ∧
    (IndexJs.destroy (IndexJs.clipboardObserver ⟨some 500, true, false⟩ clip0 sys0).1
        (IndexJs.clipboardObserver ⟨some 500, true, false⟩ clip0 sys0).2.1).active
      = [] := by
  decide

/-- C3: evaluating start on a freshly constructed class observer (whose
constructor already ran start once, leaving interval 0 active) shows that a
second start leaves two active intervals, not one: setTimer never clears
the previous interval, so every tick period now fires the callbacks twice. -/
theorem C3_theorem :
    ((ClipboardObserver.start clip0 started0.1 started0.2.1).2.1.active
        = [(0, some 500), (1, some 500)]) ∧
    ((ClipboardObserver.start clip0 started0.1 started0.2.1).2.1.active.length
        = 2) := by
  decide

/-- C4: the image diff predicate (identical in both variants) reports a
change iff the current image is present, not empty per isEmpty, and its
toDataURL form differs from the one of the previous image. -/
theorem C4_theorem (b : Image) (a : Option Image) :
    isDiffImage (some b) a = Except.ok true ↔
      ∃ i, a = some i ∧ i.isEmpty = false ∧ i.toDataURL ≠ b.toDataURL := by
  cases a with
  | none => simp [isDiffImage]
  | some i =>
    by_cases h : i.isEmpty = true
    · simp [isDiffImage, h]
    · simp only [Bool.not_eq_true] at h
      simp [isDiffImage, h]
      constructor
      · intro hne heq; exact hne heq.symm
      · intro hne heq; exact hne heq.symm

/-- C5: for every observer produced by the class constructor, by the class
start, or by the function-variant constructor, the last-known value of each
configured channel is seeded from a live read of the clipboard, and a first
tick against the unchanged clipboard leaves the state untouched, performs
no callback invocation and raises nothing. -/
theorem C5_theorem (opts : Options) (clip : Clipboard) (sys : TimerSys)
    (s : ObserverState) (tT : String → Option String → Bool)
    (iT : Image → Option Image → Bool) :
    ((opts.textChange = true →
        (ClipboardObserver.mkObserver opts clip sys).1.beforeText = some clip.text) ∧
     (opts.imageChange = true →
        (ClipboardObserver.mkObserver opts clip sys).1.beforeImage = some clip.image) ∧
     (ClipboardObserver.tick tT iT clip (ClipboardObserver.mkObserver opts clip sys).1).state
        = (ClipboardObserver.mkObserver opts clip sys).1 ∧
     (ClipboardObserver.tick tT iT clip
        (ClipboardObserver.mkObserver opts clip sys).1).effects.all
          (fun e => !e.isCallback) = true ∧
     (ClipboardObserver.tick tT iT clip
        (ClipboardObserver.mkObserver opts clip sys).1).threw = false) ∧
    ((s.textChange = true →
        (ClipboardObserver.start clip s sys).1.beforeText = some clip.text) ∧
     (s.imageChange = true →
        (ClipboardObserver.start clip s sys).1.beforeImage = some clip.image) ∧
     (ClipboardObserver.tick tT iT clip (ClipboardObserver.start clip s sys).1).state
        = (ClipboardObserver.start clip s sys).1 ∧
     (ClipboardObserver.tick tT iT clip
        (ClipboardObserver.start clip s sys).1).effects.all
          (fun e => !e.isCallback) = true ∧
     (ClipboardObserver.tick tT iT clip
        (ClipboardObserver.start clip s sys).1).threw = false) ∧
    ((opts.textChange = true →
        (IndexJs.clipboardObserver opts clip sys).1.beforeText = some clip.text) ∧
     (opts.imageChange = true →
        (IndexJs.clipboardObserver opts clip sys).1.beforeImage = some clip.image) ∧
     (IndexJs.tick tT iT clip (IndexJs.clipboardObserver opts clip sys).1).state
        = (IndexJs.clipboardObserver opts clip sys).1 ∧
     (IndexJs.tick tT iT clip (IndexJs.clipboardObserver opts clip sys).1).effects.all
        (fun e => !e.isCallback) = true ∧
     (IndexJs.tick tT iT clip (IndexJs.clipboardObserver opts clip sys).1).threw
        = false) := by
  obtain ⟨m1, m2, m3, m4⟩ := mk_cls_seeds opts clip sys
  obtain ⟨t1, t2, t3, t4⟩ := start_cls_seeds clip s sys
  obtain ⟨i1, i2, i3, i4⟩ := mk_idx_seeds opts clip sys
  refine ⟨⟨m3, m4, ?_⟩, ⟨t3, t4, ?_⟩, ⟨i3, i4, ?_⟩⟩
  · exact tick_cls_noop tT iT clip _
      (fun h => m3 (m1.symm.trans h)) (fun h => m4 (m2.symm.trans h))
  · exact tick_cls_noop tT iT clip _
      (fun h => t3 (t1.symm.trans h)) (fun h => t4 (t2.symm.trans h))
  · exact tick_idx_noop tT iT clip _
      (fun h => i3 (i1.symm.trans h)) (fun h => i4 (i2.symm.trans h))

/-- C6, counterexample: calling start on a class observer constructed with
neither callback does schedule a timer, against the claim that no timer is
ever scheduled and that start is a no-op. -/
theorem C6_counterexample :
    ¬ ((ClipboardObserver.start clip0 dormant0 sys0).2.1.active = []) := by
  decide

/-- C6, amended: with neither callback configured, construction (in either
variant) schedules no timer, performs no reads and leaves the timer system
untouched; destroy on the never-started function observer is a no-op; every
tick performs no reads and invokes no callbacks; and the class start, which
does schedule a timer, still performs no clipboard reads and never changes
the stored values. -/
theorem C6_amended_theorem (opts : Options) (clip : Clipboard) (sys : TimerSys)
    (s : ObserverState) (tT : String → Option String → Bool)
    (iT : Image → Option Image → Bool)
    (ho₁ : opts.textChange = false) (ho₂ : opts.imageChange = false)
    (hs₁ : s.textChange = false) (hs₂ : s.imageChange = false) :
    (ClipboardObserver.mkObserver opts clip sys).1.timer = none ∧
    (ClipboardObserver.mkObserver opts clip sys).2.1 = sys ∧
    (ClipboardObserver.mkObserver opts clip sys).2.2 = [] ∧
    (IndexJs.clipboardObserver opts clip sys).1.timer = none ∧
    (IndexJs.clipboardObserver opts clip sys).2.1 = sys ∧
    (IndexJs.clipboardObserver opts clip sys).2.2 = [] ∧
    IndexJs.destroy (IndexJs.clipboardObserver opts clip sys).1 sys = sys ∧
    ClipboardObserver.tick tT iT clip s = ⟨s, [], false⟩ ∧
    IndexJs.tick tT iT clip s = ⟨s, [], false⟩ ∧
    (ClipboardObserver.start clip s sys).2.2 = [] ∧
    (ClipboardObserver.start clip s sys).1.beforeText = s.beforeText ∧
    (ClipboardObserver.start clip s sys).1.beforeImage = s.beforeImage := by
  simp [ClipboardObserver.mkObserver, IndexJs.clipboardObserver, IndexJs.destroy,
    ClipboardObserver.start, ClipboardObserver.setClipboardDefaultValue,
    ClipboardObserver.setTimer, TimerSys.setIntervalCall, TimerSys.clearIntervalCall,
    ClipboardObserver.tick, IndexJs.tick, imageStep, ho₁, ho₂, hs₁, hs₂]

/-- C6, witness: the amended theorem applied to a concrete dormant observer
over a concrete clipboard and fresh timer system. -/
theorem C6_witness :
    (ClipboardObserver.mkObserver ⟨none, false, false⟩ clip0 sys0).1.timer = none ∧
    ClipboardObserver.tick (fun _ _ => false) (fun _ _ => false) clip0 dormant0
      = ⟨dormant0, [], false⟩ := by
  have h := C6_amended_theorem ⟨none, false, false⟩ clip0 sys0 dormant0
    (fun _ _ => false) (fun _ _ => false) rfl rfl rfl rfl
  exact ⟨h.1, h.2.2.2.2.2.2.2.1⟩

/-- C7: with no image callback configured, no operation of either variant
ever performs a readImage: not the constructors, not the class start or its
seeding, and not any tick. -/
theorem C7_theorem (opts : Options) (clip : Clipboard) (sys : TimerSys)
    (s : ObserverState) (tT : String → Option String → Bool)
    (iT : Image → Option Image → Bool)
    (ho : opts.imageChange = false) (hs : s.imageChange = false) :
    (ClipboardObserver.mkObserver opts clip sys).2.2.all
      (fun e => !e.isReadImage) = true ∧
    (IndexJs.clipboardObserver opts clip sys).2.2.all
      (fun e => !e.isReadImage) = true ∧
    (ClipboardObserver.start clip s sys).2.2.all (fun e => !e.isReadImage) = true ∧
    (ClipboardObserver.setClipboardDefaultValue clip s).2.all
      (fun e => !e.isReadImage) = true ∧
    (ClipboardObserver.tick tT iT clip s).effects.all
      (fun e => !e.isReadImage) = true ∧
    (IndexJs.tick tT iT clip s).effects.all (fun e => !e.isReadImage) = true := by
  refine ⟨?_, ?_, ?_, ?_, ?_, ?_⟩
  · cases htc : opts.textChange <;>
      simp [ClipboardObserver.mkObserver, ClipboardObserver.start,
        ClipboardObserver.setClipboardDefaultValue, ClipboardObserver.setTimer,
        TimerSys.setIntervalCall, htc, ho, Effect.isReadImage]
  · cases htc : opts.textChange <;>
      simp [IndexJs.clipboardObserver, TimerSys.setIntervalCall, htc, ho,
        Effect.isReadImage]
  · cases htc : s.textChange <;>
      simp [ClipboardObserver.start, ClipboardObserver.setClipboardDefaultValue,
        ClipboardObserver.setTimer, TimerSys.setIntervalCall, htc, hs,
        Effect.isReadImage]
  · cases htc : s.textChange <;>
      simp [ClipboardObserver.setClipboardDefaultValue, htc, hs, Effect.isReadImage]
  · cases htc : s.textChange
    · simp [ClipboardObserver.tick, htc, imageStep, hs]
    · simp only [ClipboardObserver.tick, htc, if_true]
      split
      · split
        · simp [Effect.isReadImage]
        · simp [imageStep, hs, Effect.isReadImage]
      · simp [imageStep, hs, Effect.isReadImage]
  · cases htc : s.textChange
    · simp [IndexJs.tick, htc, imageStep, hs]
    · simp only [IndexJs.tick, htc, if_true]
      split
      · split
        · simp [Effect.isReadImage]
        · simp [imageStep, hs, Effect.isReadImage]
      · simp [imageStep, hs, Effect.isReadImage]

/-- C7, witness: the theorem applied to a concrete observer configured with
only the text callback. -/
theorem C7_witness :
    (ClipboardObserver.mkObserver ⟨none, true, false⟩ clip0 sys0).2.2.all
      (fun e => !e.isReadImage) = true :=
  (C7_theorem ⟨none, true, false⟩ clip0 sys0 sA (fun _ _ => false)
    (fun _ _ => false) rfl rfl).1

/-- C8: constructing the class observer with a text callback and no
duration stores undefined as the duration (the field default 500 is
unconditionally overwritten by the constructor) and schedules the interval
with delay undefined, not 500; the function variant resolves the same
configuration to the default 500. -/
theorem C8_theorem :
    ((ClipboardObserver.mkObserver ⟨none, true, false⟩ clip0 sys0).1.duration
        = none) ∧
    ((ClipboardObserver.mkObserver ⟨none, true, false⟩ clip0 sys0).2.1.active
        = [(0, none)]) ∧
    ((IndexJs.clipboardObserver ⟨none, true, false⟩ clip0 sys0).2.1.active
        = [(0, some 500)]) := by
  decide

/-- C9, counterexample: the two isDiffText predicates disagree at
previousText empty and currentText "a": the function variant reports no
change, the class variant reports a change. -/
theorem C9_counterexample :
    ¬ (IndexJs.isDiffText (some "") "a"
        = ClipboardObserver.isDiffText (some "") "a") := by
  decide

/-- C9, amended: the two isDiffText predicates agree on every pair of
string inputs whose previous text is non-empty; they differ exactly on the
pairs with empty previous text and non-empty current text. -/
theorem C9_amended_theorem (p c : String) (h : p ≠ "") :
    IndexJs.isDiffText (some p) c = ClipboardObserver.isDiffText (some p) c := by
  rw [Bool.eq_iff_iff]
  simp [IndexJs.isDiffText, ClipboardObserver.isDiffText, h]

/-- C9, witness: the amended theorem applied at a concrete non-empty pair. -/
theorem C9_witness :
    IndexJs.isDiffText (some "x") "y" = ClipboardObserver.isDiffText (some "x") "y" :=
  C9_amended_theorem "x" "y" (by decide)

/-- C10: on a tick whose text diff fires, a callback that raises leaves the
stored text unchanged (the assignment comes strictly after the call), so the
same change is detected again by the next tick against the same clipboard,
and the stored text is updated exactly when the callback returns normally;
the function variant behaves the same, and the image channel behaves the
same for its stored image. -/
theorem C10_theorem (tT : String → Option String → Bool)
    (iT : Image → Option Image → Bool) (clip : Clipboard) (s : ObserverState)
    (ht : s.textChange = true)
    (hd : ClipboardObserver.isDiffText s.beforeText clip.text = true)
    (hthrow : tT clip.text s.beforeText = true) :
    (ClipboardObserver.tick tT iT clip s
        = ⟨s, [Effect.readText clip.text, Effect.textChange clip.text s.beforeText],
            true⟩) ∧
    (ClipboardObserver.isDiffText
        (ClipboardObserver.tick tT iT clip s).state.beforeText clip.text = true) ∧
    (∀ tT₂ : String → Option String → Bool, tT₂ clip.text s.beforeText = false →
        (ClipboardObserver.tick tT₂ iT clip s).state.beforeText = some clip.text) ∧
    (IndexJs.isDiffText s.beforeText clip.text = true →
      (IndexJs.tick tT iT clip s
          = ⟨s, [Effect.readText clip.text, Effect.textChange clip.text s.beforeText],
              true⟩) ∧
      (∀ tT₂ : String → Option String → Bool, tT₂ clip.text s.beforeText = false →
          (IndexJs.tick tT₂ iT clip s).state.beforeText = some clip.text)) ∧
    (∀ s₂ : ObserverState, s₂.textChange = false → s₂.imageChange = true →
        isDiffImage s₂.beforeImage (some clip.image) = Except.ok true →
        ((iT clip.image s₂.beforeImage = true →
            (ClipboardObserver.tick tT iT clip s₂).state = s₂ ∧
            (ClipboardObserver.tick tT iT clip s₂).threw = true) ∧
         (iT clip.image s₂.beforeImage = false →
            (ClipboardObserver.tick tT iT clip s₂).state.beforeImage
              = some clip.image))) := by
  refine ⟨?_, ?_, ?_, ?_, ?_⟩
  · simp [ClipboardObserver.tick, ht, hd, hthrow]
  · simp [ClipboardObserver.tick, ht, hd, hthrow]
  · intro tT₂ h₂
    simp [ClipboardObserver.tick, ht, hd, h₂, imageStep_beforeText]
  · intro hdi
    constructor
    · simp [IndexJs.tick, ht, hdi, hthrow]
    · intro tT₂ h₂
      simp [IndexJs.tick, ht, hdi, h₂, imageStep_beforeText]
  · intro s₂ h₁ h₂ hdi
    constructor
    · intro hiT
      simp [ClipboardObserver.tick, h₁, imageStep, h₂, hdi, hiT]
    · intro hiT
      simp [ClipboardObserver.tick, h₁, imageStep, h₂, hdi, hiT]

/-- C10, witness: a throwing text callback on a tick that sees text B with
stored text A leaves the stored text at A and lets the exception escape. -/
theorem C10_witness :
    ClipboardObserver.tick (fun _ _ => true) (fun _ _ => true) clipB sA
      = ⟨sA, [Effect.readText "B", Effect.textChange "B" (some "A")], true⟩ := by
  have h := (C10_theorem (fun _ _ => true) (fun _ _ => true) clipB sA rfl
    (by decide) rfl).1
  exact h
